import Mathlib

/-!
Verification of the livekit-twilio-demo scripts.

The repository is a set of straight-line Python scripts that provision SIP
trunks and place or answer phone calls through a remote control-plane API.
Each script is embedded here as a pure function from its configuration and
from the outcomes of its awaited remote calls (an oracle for the remote
control plane) to a trace record: the request objects it submitted, the
lines it printed, how often it released the API client, and its process
exit code.  All definitions are translated from the Python sources:
demo.py, inbound_agent.py, main.py, make_call.py, outbound_agent.py and
outbound_annotated.py (the last mirrors outbound_agent.py line for line).
-/

/-- A single quote character, used to build output lines that contain one. -/
def qDelim : String := Char.toString (Char.ofNat 39)

/-- A raised Python exception: its type name and its message (the result of
applying str to the exception). -/
structure PyError where
  typeName : String
  msg : String
deriving DecidableEq

/-- Outcome of one awaited remote call: a returned value or a raised error. -/
inductive Outcome (α : Type) where
  | ok (val : α)
  | err (e : PyError)
deriving DecidableEq

/-- Bool test that the first character list is an initial segment of the
second; helper for the Python substring operator. -/
def leads : List Char → List Char → Bool
  | [], _ => true
  | _ :: _, [] => false
  | a :: as, b :: bs => a == b && leads as bs

/-- Bool test that p occurs contiguously inside the second list; embeds the
Python expression p in s on strings. -/
def subList (p : List Char) : List Char → Bool
  | [] => p.isEmpty
  | c :: cs => leads p (c :: cs) || subList p cs

/-- Python substring containment: pat in s. -/
def hasSub (s pat : String) : Bool := subList pat.data s.data

/-- Python str.lower for the ASCII range, the range the scripts use. -/
def lowerStr (s : String) : String := String.mk (s.data.map Char.toLower)

/-- The error classification used by inbound_agent.py line 130:
"already exists" in str(e).lower(). -/
def hasAlreadyExists (m : String) : Bool := hasSub (lowerStr m) "already exists"

/-- Replacement of every occurrence of the one-character pattern p by r;
list core of Python str.replace with a single-character pattern. -/
def replaceCharList (p : Char) (r : List Char) : List Char → List Char
  | [] => []
  | c :: cs =>
    if c == p then r ++ replaceCharList p r cs else c :: replaceCharList p r cs

/-- Python str.replace for a single-character pattern, the only form the
sources use (TARGET_PHONE.replace applied to the plus sign and ""). -/
def pyReplace (s : String) (p : Char) (r : String) : String :=
  String.mk (replaceCharList p r.data s.data)

/-- Python dict.get on a key-value list (dict keys are unique, so first
match is the Python semantics). -/
def dictGet : List (String × String) → String → Option String
  | [], _ => none
  | (a, b) :: rest, k => if a = k then some b else dictGet rest k

/-- Python truthiness of an optional string: present and non-empty. -/
def truthyOpt : Option String → Bool
  | none => false
  | some s => !s.isEmpty

/-- SIPOutboundTrunkInfo as constructed in outbound_agent.py lines 104-110
and demo.py lines 100-224. -/
structure SIPOutboundTrunkInfo where
  name : String
  address : String
  numbers : List String
  auth_username : String
  auth_password : String
deriving DecidableEq

/-- CreateSIPParticipantRequest as constructed in outbound_agent.py lines
119-127 and make_call.py lines 31-49. -/
structure CreateSIPParticipantRequest where
  sip_trunk_id : String
  sip_call_to : String
  room_name : String
  participant_identity : String
  participant_name : String
  krisp_enabled : Bool
  wait_until_answered : Bool
deriving DecidableEq

/-- The part of the trunk-creation response the scripts read. -/
structure TrunkInfo where
  sip_trunk_id : String
deriving DecidableEq

/-- SIPInboundTrunkInfo as constructed in inbound_agent.py lines 99-102. -/
structure SIPInboundTrunkInfo where
  name : String
  numbers : List String
deriving DecidableEq

/-- SIPDispatchRuleInfo as constructed in inbound_agent.py lines 112-121;
the nested individual-dispatch rule is flattened to its one string field,
renamed from the source field because of a lexical restriction. -/
structure SIPDispatchRuleInfo where
  name : String
  trunk_ids : List String
  roomPrefixValue : String
  hide_phone_number : Bool
deriving DecidableEq

/-- The part of the dispatch-rule response the script reads. -/
structure RuleInfo where
  sip_dispatch_rule_id : String
deriving DecidableEq

namespace OutboundAgent

/-- Environment configuration read by outbound_agent.py lines 20-30. -/
structure Env where
  TWILIO_PHONE_NUMBER : String
  TWILIO_SIP_DOMAIN : String
  TWILIO_SIP_USERNAME : String
  TWILIO_SIP_PASSWORD : String
  SIP_CALL_TO : String
deriving DecidableEq

/-- Observable trace of one run of main in outbound_agent.py (identical
logic in outbound_annotated.py lines 231-309). -/
structure Run where
  trunkRequests : List SIPOutboundTrunkInfo
  participantRequests : List CreateSIPParticipantRequest
  output : List String
  acloseCount : Nat
  exitCode : Nat
deriving DecidableEq

/-- main of outbound_agent.py lines 94-134, run under asyncio.run: builds
the trunk request, submits it, and on success builds and submits the
call-placement request; any exception is caught and printed, the finally
block closes the client, and the process exits 0. -/
def main (env : Env) (trunkRes : Outcome TrunkInfo) (partRes : Outcome Unit) : Run :=
  let treq : SIPOutboundTrunkInfo :=
    { name := "Twilio Outbound"
      address := env.TWILIO_SIP_DOMAIN
      numbers := [env.TWILIO_PHONE_NUMBER]
      auth_username := env.TWILIO_SIP_USERNAME
      auth_password := env.TWILIO_SIP_PASSWORD }
  match trunkRes with
  | .err e =>
    { trunkRequests := [treq]
      participantRequests := []
      output := ["📞 Creating SIP trunk...", "❌ Error: " ++ e.msg]
      acloseCount := 1
      exitCode := 0 }
  | .ok trunk =>
    let trunk_id := trunk.sip_trunk_id
    let preq : CreateSIPParticipantRequest :=
      { sip_trunk_id := trunk_id
        sip_call_to := env.SIP_CALL_TO
        room_name := "call-" ++ pyReplace env.SIP_CALL_TO '+' ""
        participant_identity := "ai-caller"
        participant_name := "AI Assistant"
        krisp_enabled := true
        wait_until_answered := true }
    match partRes with
    | .err e =>
      { trunkRequests := [treq]
        participantRequests := [preq]
        output := ["📞 Creating SIP trunk...", "✅ Trunk created: " ++ trunk_id,
                   "📱 Calling " ++ env.SIP_CALL_TO ++ "...", "❌ Error: " ++ e.msg]
        acloseCount := 1
        exitCode := 0 }
    | .ok _ =>
      { trunkRequests := [treq]
        participantRequests := [preq]
        output := ["📞 Creating SIP trunk...", "✅ Trunk created: " ++ trunk_id,
                   "📱 Calling " ++ env.SIP_CALL_TO ++ "...",
                   "✅ Call initiated! Agent will answer when picked up."]
        acloseCount := 1
        exitCode := 0 }

end OutboundAgent

namespace InboundAgent

/-- Environment configuration read by inbound_agent.py lines 21-24 (only
the phone number feeds a request object). -/
structure Env where
  TWILIO_PHONE_NUMBER : String
deriving DecidableEq

/-- Observable trace of one run of setup_inbound in inbound_agent.py. -/
structure Run where
  trunkRequests : List SIPInboundTrunkInfo
  ruleRequests : List SIPDispatchRuleInfo
  output : List String
  acloseCount : Nat
  exitCode : Nat
deriving DecidableEq

/-- The except handler of inbound_agent.py lines 129-133: an error whose
lowercased message contains "already exists" is reported as already
configured, any other error is reported with an error prefix. -/
def setupHandler (e : PyError) : String :=
  if hasAlreadyExists e.msg then "✅ Already configured (trunk/rule exists)"
  else "❌ Error: " ++ e.msg

/-- setup_inbound of inbound_agent.py lines 87-136, run under asyncio.run:
creates the inbound trunk, then the dispatch rule referencing the returned
trunk identifier; one except block around both steps applies setupHandler,
and the finally block closes the client; the process exits 0. -/
def setup_inbound (env : Env) (trunkRes : Outcome TrunkInfo)
    (ruleRes : Outcome RuleInfo) : Run :=
  let treq : SIPInboundTrunkInfo :=
    { name := "Twilio Inbound", numbers := [env.TWILIO_PHONE_NUMBER] }
  match trunkRes with
  | .err e =>
    { trunkRequests := [treq]
      ruleRequests := []
      output := ["🔧 Setting up inbound call handling...",
                 "\n📥 Creating inbound trunk...", setupHandler e]
      acloseCount := 1
      exitCode := 0 }
  | .ok trunk =>
    let trunk_id := trunk.sip_trunk_id
    let rreq : SIPDispatchRuleInfo :=
      { name := "Route to AI Agent"
        trunk_ids := [trunk_id]
        roomPrefixValue := "call-"
        hide_phone_number := false }
    match ruleRes with
    | .err e =>
      { trunkRequests := [treq]
        ruleRequests := [rreq]
        output := ["🔧 Setting up inbound call handling...",
                   "\n📥 Creating inbound trunk...",
                   "✅ Trunk created: " ++ trunk_id,
                   "\n🎯 Creating dispatch rule...", setupHandler e]
        acloseCount := 1
        exitCode := 0 }
    | .ok rule =>
      { trunkRequests := [treq]
        ruleRequests := [rreq]
        output := ["🔧 Setting up inbound call handling...",
                   "\n📥 Creating inbound trunk...",
                   "✅ Trunk created: " ++ trunk_id,
                   "\n🎯 Creating dispatch rule...",
                   "✅ Dispatch rule created: " ++ rule.sip_dispatch_rule_id,
                   "\n✅ Setup complete!",
                   "\n📞 Next: python inbound_agent.py agent"]
        acloseCount := 1
        exitCode := 0 }

/-- The two long-running worker modes a script can enter from its
command-line dispatch. -/
inductive WorkerAction where
  | runSetup
  | runAgent
deriving DecidableEq

/-- Result of the command-line dispatch of a script: the lines printed by
the dispatch itself, the process exit code when the dispatch ends the
process directly, and the mode entered (none when no mode is entered). -/
structure CliRun where
  output : List String
  exitCode : Nat
  action : Option WorkerAction
deriving DecidableEq

/-- The main block of inbound_agent.py lines 139-154: fewer than two argv
entries prints usage and exits 1; otherwise the lowercased first argument
selects setup or agent, and anything else prints an unknown-command line
and falls off the end of the script (exit code 0). -/
def cliMain (argv : List String) : CliRun :=
  if argv.length < 2 then
    { output := ["Usage:",
                 "  python inbound_agent.py setup    # Setup once",
                 "  python inbound_agent.py agent    # Run to answer calls"]
      exitCode := 1
      action := none }
  else
    let command := lowerStr (argv.getD 1 "")
    if command = "setup" then
      { output := [], exitCode := 0, action := some .runSetup }
    else if command = "agent" then
      { output := [], exitCode := 0, action := some .runAgent }
    else
      { output := ["❌ Unknown command: " ++ command], exitCode := 0, action := none }

end InboundAgent

namespace OutboundAgent

/-- The mode selected by the main block of outbound_agent.py lines
140-150 (same structure in outbound_annotated.py lines 314-331). -/
inductive Mode where
  | agentMode
  | callMode
deriving DecidableEq

/-- The main block of outbound_agent.py: the agent worker runs only when
the first argument is exactly "agent"; every other invocation, with any
other argument or none, runs main (the call-placement mode); nothing is
printed by the dispatch and no non-zero exit occurs. -/
def cliMain (argv : List String) : Mode :=
  if argv.length > 1 && argv.getD 1 "" == "agent" then .agentMode else .callMode

end OutboundAgent

namespace MakeCall

/-- Settings bound by make_call.py lines 10-15 (the two fields that feed
the request; the connection fields do not reach any request object). -/
structure Settings where
  SIP_TRUNK_ID : String
  SIP_CALL_TO : String
deriving DecidableEq

/-- A structured control-plane error as caught in make_call.py line 57:
machine-readable code, message, and a metadata dictionary. -/
structure TwirpError where
  code : String
  message : String
  metadata : List (String × String)
deriving DecidableEq

/-- The three lines printed for every TwirpError regardless of metadata,
make_call.py lines 58-60. -/
def baseLines (e : TwirpError) : List String :=
  ["❌ Call failed!", "Error code: " ++ e.code, "Message: " ++ e.message]

/-- The hint-header line of make_call.py line 66, printed with the SIP
status code interpolated between single quotes. -/
def sipHintLine (code : String) : String :=
  "\n💡 SIP status " ++ qDelim ++ code ++ qDelim ++ " typically means:"

/-- The three explanation lines of make_call.py lines 68-70, printed only
inside the 486 branch. -/
def busyHintLines : List String :=
  ["   - The phone is busy or rejecting the call",
   "   - Try calling a different number",
   "   - Check if the number can receive calls"]

/-- Whether the pair of metadata entries read in make_call.py lines 62-63
are both truthy, the guard of line 64. -/
def mdTruthyPair (e : TwirpError) : Bool :=
  truthyOpt (dictGet e.metadata "sip_status")
    && truthyOpt (dictGet e.metadata "sip_status_code")

/-- The full output of the TwirpError except branch, make_call.py lines
57-70: base lines, then, when the metadata dictionary is truthy and both
entries are truthy, the SIP status line and the hint header, then the busy
explanation only when the code equals 486. -/
def twirpErrorOutput (e : TwirpError) : List String :=
  baseLines e ++
    (if e.metadata.isEmpty then [] else
      let sip_status := dictGet e.metadata "sip_status"
      let sip_code := dictGet e.metadata "sip_status_code"
      if truthyOpt sip_status && truthyOpt sip_code then
        ["SIP Status: " ++ sip_code.getD "" ++ " - " ++ sip_status.getD "",
         sipHintLine (sip_code.getD "")]
        ++ (if sip_code.getD "" = "486" then busyHintLines else [])
      else [])

/-- Outcome of the awaited create_sip_participant call in make_call.py:
success fields read by the prints, a structured TwirpError, or any other
exception with its type name and message. -/
inductive CallOutcome where
  | ok (sip_call_id participant_id room_name : String)
  | twirp (e : TwirpError)
  | other (typeName msg : String)
deriving DecidableEq

/-- Observable trace of one run of make_outbound_call. -/
structure Run where
  participantRequests : List CreateSIPParticipantRequest
  output : List String
  acloseCount : Nat
  exitCode : Nat
deriving DecidableEq

/-- make_outbound_call of make_call.py lines 17-74, run under asyncio.run:
builds and submits the call-placement request, prints the success fields
or the structured or generic error report, and in all cases the finally
block closes the client once and the process exits 0. -/
def make_outbound_call (s : Settings) (res : CallOutcome) : Run :=
  let preq : CreateSIPParticipantRequest :=
    { sip_trunk_id := s.SIP_TRUNK_ID
      sip_call_to := s.SIP_CALL_TO
      room_name := "outbound-test-call"
      participant_identity := "outbound-caller"
      participant_name := "Test Caller"
      krisp_enabled := true
      wait_until_answered := true }
  match res with
  | .ok cid pid rn =>
    { participantRequests := [preq]
      output := ["✅ Call initiated!", "📞 SIP Call ID: " ++ cid,
                 "🆔 Participant ID: " ++ pid, "📍 Room: " ++ rn]
      acloseCount := 1
      exitCode := 0 }
  | .twirp e =>
    { participantRequests := [preq]
      output := twirpErrorOutput e
      acloseCount := 1
      exitCode := 0 }
  | .other t m =>
    { participantRequests := [preq]
      output := ["❌ Unexpected error: " ++ t ++ ": " ++ m]
      acloseCount := 1
      exitCode := 0 }

end MakeCall

namespace Demo

/-- Settings bound by demo.py lines 25-32 (the fields that feed the trunk
request). -/
structure Settings where
  TWILIO_SIP_URI : String
  Number : String
  TWILIO_SIP_USERNAME : String
  TWILIO_SIP_PASSWORD : String
deriving DecidableEq

/-- Observable trace of one run of create_twilio_outbound_trunk in
demo.py; raisedOut records whether an exception escaped the coroutine. -/
structure Run where
  trunkRequests : List SIPOutboundTrunkInfo
  output : List String
  acloseCount : Nat
  exitCode : Nat
  raisedOut : Bool
deriving DecidableEq

/-- create_twilio_outbound_trunk of demo.py lines 39-257, run by
asyncio.run at line 264.  There is no try/finally: on success the trunk id
is printed and aclose runs once; when the awaited trunk creation raises,
the exception escapes the coroutine, aclose is never reached, and the
process exits 1. -/
def create_twilio_outbound_trunk (s : Settings) (res : Outcome TrunkInfo) : Run :=
  let treq : SIPOutboundTrunkInfo :=
    { name := "Twilio Outbound"
      address := s.TWILIO_SIP_URI
      numbers := [s.Number]
      auth_username := s.TWILIO_SIP_USERNAME
      auth_password := s.TWILIO_SIP_PASSWORD }
  match res with
  | .ok trunk =>
    { trunkRequests := [treq]
      output := ["✅ Outbound trunk created: " ++ trunk.sip_trunk_id]
      acloseCount := 1
      exitCode := 0
      raisedOut := false }
  | .err _ =>
    { trunkRequests := [treq]
      output := []
      acloseCount := 0
      exitCode := 1
      raisedOut := true }

end Demo

/-- The operations a worker entrypoint awaits, in the vocabulary shared by
the three entrypoints (prints are not recorded; sleepPause is the
asyncio.sleep call outbound_agent.py makes between session start and the
greeting). -/
inductive AgentStep where
  | connect
  | waitParticipant
  | buildPipeline
  | startSession
  | sleepPause
  | generateReply
deriving DecidableEq

namespace OutboundAgent

/-- The awaited operations of entrypoint in outbound_agent.py lines 49-88,
in source order: connect, wait_for_participant, AgentSession construction,
session.start, asyncio.sleep, one generate_reply. -/
def entrypointSteps : List AgentStep :=
  [.connect, .waitParticipant, .buildPipeline, .startSession, .sleepPause,
   .generateReply]

end OutboundAgent

namespace InboundAgent

/-- The awaited operations of entrypoint in inbound_agent.py lines 42-81,
in source order: connect, wait_for_participant, AgentSession construction,
session.start, one generate_reply. -/
def entrypointSteps : List AgentStep :=
  [.connect, .waitParticipant, .buildPipeline, .startSession, .generateReply]

end InboundAgent

namespace MainAgent

/-- The awaited operations of entrypoint in main.py lines 22-50, in source
order: that entrypoint constructs the pipeline, starts the session and
issues one generate_reply, with no connect call and no
wait_for_participant call anywhere in its body. -/
def entrypointSteps : List AgentStep :=
  [.buildPipeline, .startSession, .generateReply]

end MainAgent

/-- Concrete configuration taken from the specification scenario in
section 8 item 6. -/
def envSpec : OutboundAgent.Env :=
  { TWILIO_PHONE_NUMBER := "+15551230000"
    TWILIO_SIP_DOMAIN := "demo.pstn.example.com"
    TWILIO_SIP_USERNAME := "user"
    TWILIO_SIP_PASSWORD := "pass"
    SIP_CALL_TO := "+15551230000" }

/-- Claim C3: within one outbound provisioning run, the call-placement
request is built only from a trunk identifier returned by trunk creation,
and when trunk creation raises any error no call-placement request is
submitted at all. -/
theorem claim3_ordering :
    (∀ (env : OutboundAgent.Env) (e : PyError) (p : Outcome Unit),
      (OutboundAgent.main env (.err e) p).participantRequests = [])
    ∧ (∀ (env : OutboundAgent.Env) (tid : String) (p : Outcome Unit),
      ((OutboundAgent.main env (.ok ⟨tid⟩) p).participantRequests.all
        (fun r => r.sip_trunk_id == tid)) = true
      ∧ (OutboundAgent.main env (.ok ⟨tid⟩) p).trunkRequests ≠ []) := by
  refine ⟨fun env e p => rfl, fun env tid p => ?_⟩
  cases p with
  | ok v => exact ⟨by simp [OutboundAgent.main], by simp [OutboundAgent.main]⟩
  | err e => exact ⟨by simp [OutboundAgent.main], by simp [OutboundAgent.main]⟩

/-- A structured telephony error with a non-486 SIP status code, used as a
concrete probe of the error-reporting branch. -/
def e503 : MakeCall.TwirpError :=
  { code := "unavailable"
    message := "cannot place call"
    metadata := [("sip_status", "Service Unavailable"), ("sip_status_code", "503")] }

/-- A structured telephony error whose metadata carries a 486 code but no
sip_status entry. -/
def e486miss : MakeCall.TwirpError :=
  { code := "twirp_unavailable"
    message := "user busy"
    metadata := [("sip_status_code", "486")] }

/-- Modelled from the claim wording for C6: the fixed step order the claim
asserts for every worker entrypoint. -/
def claimFixedOrder : List AgentStep :=
  [.connect, .waitParticipant, .buildPipeline, .startSession, .generateReply]

/-- Modelled from the claim wording for C5: the output the claim predicts
for a telephony failure whose SIP status code is not 486 — only the
generic lines and the status/message pair, with no extra hint line. -/
def claimNon486Output (e : MakeCall.TwirpError) : List String :=
  MakeCall.baseLines e ++
    ["SIP Status: " ++ (dictGet e.metadata "sip_status_code").getD "" ++ " - "
      ++ (dictGet e.metadata "sip_status").getD ""]

/-- Replacing a one-character pattern by the empty string deletes every
occurrence of that character. -/
theorem replaceCharList_nil_filter (p : Char) (l : List Char) :
    replaceCharList p [] l = l.filter (fun c => c != p) := by
  induction l with
  | nil => rfl
  | cons c cs ih =>
    cases h : c == p <;> simp [replaceCharList, h, List.filter_cons, bne, ih]

/-- The room-name computation of outbound_agent.py line 122 deletes every
plus character from the destination number. -/
theorem pyReplace_plus_filter (s : String) :
    pyReplace s '+' "" = String.mk (s.data.filter (fun c => c != '+')) := by
  show String.mk (replaceCharList '+' ("" : String).data s.data) = _
  rw [show ("" : String).data = [] from rfl, replaceCharList_nil_filter]

/-- When the truthy-pair guard of make_call.py line 64 fails, only the
three generic lines are printed. -/
theorem twirpOutput_of_not_pair (e : MakeCall.TwirpError)
    (h : MakeCall.mdTruthyPair e = false) :
    MakeCall.twirpErrorOutput e = MakeCall.baseLines e := by
  rcases e with ⟨c, m, md⟩
  cases md with
  | nil => simp [MakeCall.twirpErrorOutput]
  | cons hd tl =>
    rw [MakeCall.mdTruthyPair] at h
    simp [MakeCall.twirpErrorOutput, h]

/-- Claim C1 (counterexample): with the concrete control-plane error
message "SIP trunk already exists", the inbound setup run submits no
dispatch-rule request (the remaining step does not run), and the outbound
run surfaces the same error with the error prefix instead of treating it
as success-equivalent; this refutes the claim as stated. -/
theorem claim1_counterexample :
    (InboundAgent.setup_inbound ⟨"+15551230000"⟩
      (.err ⟨"TwirpError", "SIP trunk already exists"⟩) (.ok ⟨"SDR_1"⟩)).ruleRequests = []
    ∧ hasAlreadyExists "SIP trunk already exists" = true
    ∧ "❌ Error: SIP trunk already exists" ∈
        (OutboundAgent.main envSpec
          (.err ⟨"TwirpError", "SIP trunk already exists"⟩) (.ok ())).output := by
  decide

/-- Claim C1 (amended): in the inbound setup, a trunk-creation error whose
lowercased message contains "already exists" is reported as already
configured while any other message is reported with the error prefix, but
in both cases the remaining dispatch-rule step is skipped and the script
still exits 0 after cleanup; in the outbound sequence every trunk-creation
error, matching or not, aborts the run and is surfaced with the error
prefix. -/
theorem claim1_amended (envI : InboundAgent.Env) (envO : OutboundAgent.Env)
    (e : PyError) (rr : Outcome RuleInfo) (p : Outcome Unit) :
    (InboundAgent.setup_inbound envI (.err e) rr).ruleRequests = []
    ∧ (InboundAgent.setup_inbound envI (.err e) rr).output =
        ["🔧 Setting up inbound call handling...", "\n📥 Creating inbound trunk...",
         if hasAlreadyExists e.msg then "✅ Already configured (trunk/rule exists)"
         else "❌ Error: " ++ e.msg]
    ∧ (InboundAgent.setup_inbound envI (.err e) rr).exitCode = 0
    ∧ (OutboundAgent.main envO (.err e) p).participantRequests = []
    ∧ (OutboundAgent.main envO (.err e) p).output =
        ["📞 Creating SIP trunk...", "❌ Error: " ++ e.msg] := by
  refine ⟨rfl, ?_, rfl, rfl, rfl⟩
  simp [InboundAgent.setup_inbound, InboundAgent.setupHandler]

/-- Claim C2 (counterexample): in demo.py the client is created with no
try/finally, so when trunk creation raises, the exception escapes the
coroutine and the close operation runs zero times, not once. -/
theorem claim2_counterexample :
    (Demo.create_twilio_outbound_trunk
      ⟨"demo.pstn.example.com", "+15551230000", "user", "pass"⟩
      (.err ⟨"TwirpError", "invalid credentials"⟩)).acloseCount = 0
    ∧ (Demo.create_twilio_outbound_trunk
      ⟨"demo.pstn.example.com", "+15551230000", "user", "pass"⟩
      (.err ⟨"TwirpError", "invalid credentials"⟩)).raisedOut = true := by
  decide

/-- Claim C2 (amended): make_call.py, outbound_agent.py and
inbound_agent.py close the client exactly once on every path through
their try/finally blocks; demo.py closes it exactly once on the success
path but zero times when trunk creation raises. -/
theorem claim2_amended :
    (∀ (s : MakeCall.Settings) (r : MakeCall.CallOutcome),
      (MakeCall.make_outbound_call s r).acloseCount = 1)
    ∧ (∀ (env : OutboundAgent.Env) (tr : Outcome TrunkInfo) (pr : Outcome Unit),
      (OutboundAgent.main env tr pr).acloseCount = 1)
    ∧ (∀ (env : InboundAgent.Env) (tr : Outcome TrunkInfo) (rr : Outcome RuleInfo),
      (InboundAgent.setup_inbound env tr rr).acloseCount = 1)
    ∧ (∀ (s : Demo.Settings) (t : TrunkInfo),
      (Demo.create_twilio_outbound_trunk s (.ok t)).acloseCount = 1)
    ∧ (∀ (s : Demo.Settings) (e : PyError),
      (Demo.create_twilio_outbound_trunk s (.err e)).acloseCount = 0) := by
  refine ⟨fun s r => ?_, fun env tr pr => ?_, fun env tr rr => ?_,
    fun s t => rfl, fun s e => rfl⟩
  · cases r <;> rfl
  · cases tr <;> cases pr <;> rfl
  · cases tr <;> cases rr <;> rfl

/-- Claim C4: for every configuration, the outbound-trunk creation request
of outbound_agent.py and of demo.py carries the configured address,
number, username and password unmodified together with the fixed display
name, and the returned trunk identifier is placed unchanged into the
call-placement request; in particular the scenario configuration with
returned identifier TR_1 yields a call-placement request whose trunk
identifier field is TR_1. -/
theorem claim4_fields :
    (∀ (env : OutboundAgent.Env) (tid : String) (p : Outcome Unit),
      (OutboundAgent.main env (.ok ⟨tid⟩) p).trunkRequests =
        [{ name := "Twilio Outbound", address := env.TWILIO_SIP_DOMAIN,
           numbers := [env.TWILIO_PHONE_NUMBER],
           auth_username := env.TWILIO_SIP_USERNAME,
           auth_password := env.TWILIO_SIP_PASSWORD }]
      ∧ (OutboundAgent.main env (.ok ⟨tid⟩) p).participantRequests.map
          (fun r => r.sip_trunk_id) = [tid])
    ∧ (∀ (s : Demo.Settings) (res : Outcome TrunkInfo),
      (Demo.create_twilio_outbound_trunk s res).trunkRequests =
        [{ name := "Twilio Outbound", address := s.TWILIO_SIP_URI,
           numbers := [s.Number], auth_username := s.TWILIO_SIP_USERNAME,
           auth_password := s.TWILIO_SIP_PASSWORD }])
    ∧ (OutboundAgent.main envSpec (.ok ⟨"TR_1"⟩) (.ok ())).participantRequests.map
        (fun r => r.sip_trunk_id) = ["TR_1"] := by
  refine ⟨fun env tid p => ?_, fun s res => ?_, by decide⟩
  · cases p <;> exact ⟨rfl, rfl⟩
  · cases res <;> rfl

/-- Claim C5 (counterexample): for the concrete telephony failure with SIP
status code 503, the script does not print only the generic
status/message pair: it additionally prints the dangling hint-header line
(while the busy explanation itself stays absent). -/
theorem claim5_counterexample :
    dictGet e503.metadata "sip_status_code" = some "503"
    ∧ MakeCall.twirpErrorOutput e503 ≠ claimNon486Output e503
    ∧ MakeCall.twirpErrorOutput e503 =
        claimNon486Output e503 ++ [MakeCall.sipHintLine "503"]
    ∧ "   - The phone is busy or rejecting the call" ∉
        MakeCall.twirpErrorOutput e503 := by
  decide

/-- Claim C5 (amended): when both SIP metadata entries are truthy the
script prints the status line and the hint-header line for every status
code, and appends the three busy-explanation lines exactly when the code
equals 486; when the pair is not truthy only the generic lines appear. -/
theorem claim5_amended (e : MakeCall.TwirpError) :
    MakeCall.twirpErrorOutput e =
      MakeCall.baseLines e ++
        (if MakeCall.mdTruthyPair e then
          ["SIP Status: " ++ (dictGet e.metadata "sip_status_code").getD "" ++ " - "
            ++ (dictGet e.metadata "sip_status").getD "",
           MakeCall.sipHintLine ((dictGet e.metadata "sip_status_code").getD "")]
          ++ (if (dictGet e.metadata "sip_status_code").getD "" = "486" then
                MakeCall.busyHintLines else [])
        else []) := by
  rcases e with ⟨c, m, md⟩
  cases md with
  | nil => simp [MakeCall.twirpErrorOutput, MakeCall.mdTruthyPair, dictGet, truthyOpt]
  | cons hd tl => rfl

/-- Claim C6 (counterexample): the worker entrypoint of main.py performs
neither the room-join step nor the participant-wait step, so its step
trace is not the fixed five-step order the claim asserts for every
entrypoint. -/
theorem claim6_counterexample :
    AgentStep.connect ∉ MainAgent.entrypointSteps
    ∧ AgentStep.waitParticipant ∉ MainAgent.entrypointSteps
    ∧ MainAgent.entrypointSteps ≠ claimFixedOrder := by
  decide

/-- Claim C6 (amended): the entrypoints of outbound_agent.py and
inbound_agent.py perform room-join, participant-wait, pipeline
construction, pipeline start and exactly one generated reply in that
order (outbound with an additional sleep pause before the reply), while
the entrypoint of main.py skips room-join and participant-wait and
performs only construction, start and one generated reply. -/
theorem claim6_amended :
    OutboundAgent.entrypointSteps.filter (fun s => s != AgentStep.sleepPause)
      = claimFixedOrder
    ∧ InboundAgent.entrypointSteps = claimFixedOrder
    ∧ MainAgent.entrypointSteps =
        [AgentStep.buildPipeline, AgentStep.startSession, AgentStep.generateReply]
    ∧ OutboundAgent.entrypointSteps.count AgentStep.generateReply = 1
    ∧ InboundAgent.entrypointSteps.count AgentStep.generateReply = 1
    ∧ MainAgent.entrypointSteps.count AgentStep.generateReply = 1 := by
  decide

/-- Claim C7 (counterexample): outbound_agent.py prints a caught error as
a bare message with a fixed prefix; for an error of category RuntimeError
no output line mentions the category name, refuting the claim that every
caught error is printed with its category name (the cleanup and zero exit
parts do hold there). -/
theorem claim7_counterexample :
    (OutboundAgent.main envSpec (.err ⟨"RuntimeError", "boom"⟩) (.ok ())).output =
      ["📞 Creating SIP trunk...", "❌ Error: boom"]
    ∧ ((OutboundAgent.main envSpec (.err ⟨"RuntimeError", "boom"⟩) (.ok ())).output.all
        (fun l => !(hasSub l "RuntimeError"))) = true
    ∧ (OutboundAgent.main envSpec (.err ⟨"RuntimeError", "boom"⟩) (.ok ())).exitCode = 0
    ∧ (OutboundAgent.main envSpec (.err ⟨"RuntimeError", "boom"⟩) (.ok ())).acloseCount = 1 := by
  decide

/-- Claim C7 (amended): every error in the remote-call sequences of
make_call.py and outbound_agent.py is caught and printed without
re-raising, the cleanup close still runs once, and the process exits 0;
make_call.py prints the structured error code and message, or the
exception type name and message for unexpected errors, while
outbound_agent.py prints only the message after a fixed error prefix. -/
theorem claim7_amended :
    (∀ (env : OutboundAgent.Env) (e : PyError) (p : Outcome Unit),
      ("❌ Error: " ++ e.msg) ∈ (OutboundAgent.main env (.err e) p).output
      ∧ (OutboundAgent.main env (.err e) p).acloseCount = 1
      ∧ (OutboundAgent.main env (.err e) p).exitCode = 0)
    ∧ (∀ (env : OutboundAgent.Env) (t : TrunkInfo) (e : PyError),
      ("❌ Error: " ++ e.msg) ∈ (OutboundAgent.main env (.ok t) (.err e)).output
      ∧ (OutboundAgent.main env (.ok t) (.err e)).acloseCount = 1
      ∧ (OutboundAgent.main env (.ok t) (.err e)).exitCode = 0)
    ∧ (∀ (s : MakeCall.Settings) (e : MakeCall.TwirpError),
      ("Error code: " ++ e.code) ∈ (MakeCall.make_outbound_call s (.twirp e)).output
      ∧ ("Message: " ++ e.message) ∈ (MakeCall.make_outbound_call s (.twirp e)).output
      ∧ (MakeCall.make_outbound_call s (.twirp e)).acloseCount = 1
      ∧ (MakeCall.make_outbound_call s (.twirp e)).exitCode = 0)
    ∧ (∀ (s : MakeCall.Settings) (t m : String),
      ("❌ Unexpected error: " ++ t ++ ": " ++ m) ∈
        (MakeCall.make_outbound_call s (.other t m)).output
      ∧ (MakeCall.make_outbound_call s (.other t m)).acloseCount = 1
      ∧ (MakeCall.make_outbound_call s (.other t m)).exitCode = 0) := by
  refine ⟨fun env e p => ⟨?_, rfl, rfl⟩, fun env t e => ⟨?_, rfl, rfl⟩,
    fun s e => ⟨?_, ?_, rfl, rfl⟩, fun s t m => ⟨?_, rfl, rfl⟩⟩
  · simp [OutboundAgent.main]
  · simp [OutboundAgent.main]
  · simp [MakeCall.make_outbound_call, MakeCall.twirpErrorOutput, MakeCall.baseLines]
  · simp [MakeCall.make_outbound_call, MakeCall.twirpErrorOutput, MakeCall.baseLines]
  · simp [MakeCall.make_outbound_call]

/-- Claim C8 (counterexample): an unknown subcommand makes
inbound_agent.py print an unknown-command line (not the usage text) and
end with exit code 0, and makes outbound_agent.py fall through to call
mode with no usage output at all; this refutes usage-plus-non-zero-exit. -/
theorem claim8_counterexample :
    (InboundAgent.cliMain ["inbound_agent.py", "frobnicate"]).exitCode = 0
    ∧ (InboundAgent.cliMain ["inbound_agent.py", "frobnicate"]).output =
        ["❌ Unknown command: frobnicate"]
    ∧ OutboundAgent.cliMain ["outbound_agent.py", "frobnicate"] =
        OutboundAgent.Mode.callMode := by
  decide

/-- Claim C8 (amended): inbound_agent.py prints usage and exits 1 only
when invoked with no subcommand; an unknown subcommand prints an
unknown-command line and ends with exit code 0 and no worker action, and
outbound_agent.py treats every subcommand other than agent as the default
call-placement mode. -/
theorem claim8_amended :
    InboundAgent.cliMain ["inbound_agent.py"] =
      { output := ["Usage:",
                   "  python inbound_agent.py setup    # Setup once",
                   "  python inbound_agent.py agent    # Run to answer calls"]
        exitCode := 1
        action := none }
    ∧ (∀ cmd : String, lowerStr cmd ≠ "setup" → lowerStr cmd ≠ "agent" →
        InboundAgent.cliMain ["inbound_agent.py", cmd] =
          { output := ["❌ Unknown command: " ++ lowerStr cmd]
            exitCode := 0
            action := none })
    ∧ (∀ cmd : String, cmd ≠ "agent" →
        OutboundAgent.cliMain ["outbound_agent.py", cmd] =
          OutboundAgent.Mode.callMode) := by
  refine ⟨by decide, fun cmd h1 h2 => ?_, fun cmd h => ?_⟩
  · simp [InboundAgent.cliMain, h1, h2]
  · simp [OutboundAgent.cliMain, h]

/-- Claim C8 (witness): the amended dispatch behavior instantiated at the
concrete unknown subcommand frobnicate. -/
theorem claim8_witness :
    InboundAgent.cliMain ["inbound_agent.py", "frobnicate"] =
      { output := ["❌ Unknown command: " ++ lowerStr "frobnicate"]
        exitCode := 0
        action := none }
    ∧ OutboundAgent.cliMain ["outbound_agent.py", "frobnicate"] =
        OutboundAgent.Mode.callMode :=
  ⟨claim8_amended.2.1 "frobnicate" (by decide) (by decide),
   claim8_amended.2.2 "frobnicate" (by decide)⟩

/-- Claim C9: the room name of the outbound call-placement request is the
literal call- prefix followed by the destination number with every plus
character removed, for every configuration; the scenario destination
+15551230000 yields room call-15551230000. -/
theorem claim9_room_name :
    (∀ s : String, pyReplace s '+' "" = String.mk (s.data.filter (fun c => c != '+')))
    ∧ (∀ (env : OutboundAgent.Env) (tid : String) (p : Outcome Unit),
      (OutboundAgent.main env (.ok ⟨tid⟩) p).participantRequests.map
        (fun r => r.room_name) =
        ["call-" ++ String.mk (env.SIP_CALL_TO.data.filter (fun c => c != '+'))])
    ∧ (OutboundAgent.main envSpec (.ok ⟨"TR_1"⟩) (.ok ())).participantRequests.map
        (fun r => r.room_name) = ["call-15551230000"] := by
  refine ⟨pyReplace_plus_filter, fun env tid p => ?_, by decide⟩
  cases p <;> simp [OutboundAgent.main, pyReplace_plus_filter]

/-- Claim C10: the SIP status line and any hint are printed only when the
metadata carries both a non-empty sip_status and a non-empty
sip_status_code entry; whenever that pair is not truthy (either entry
absent or empty), only the three generic lines are printed. -/
theorem claim10_metadata_gate (e : MakeCall.TwirpError) :
    (MakeCall.mdTruthyPair e = false →
      MakeCall.twirpErrorOutput e = MakeCall.baseLines e)
    ∧ (MakeCall.twirpErrorOutput e ≠ MakeCall.baseLines e →
      MakeCall.mdTruthyPair e = true) := by
  refine ⟨twirpOutput_of_not_pair e, fun hne => ?_⟩
  cases hB : MakeCall.mdTruthyPair e with
  | false => exact absurd (twirpOutput_of_not_pair e hB) hne
  | true => rfl

/-- Claim C10 (witness): a 486 failure whose metadata lacks the sip_status
entry prints only the generic lines. -/
theorem claim10_witness :
    MakeCall.twirpErrorOutput e486miss = MakeCall.baseLines e486miss :=
  (claim10_metadata_gate e486miss).1 (by decide)
